import Mathlib

/-!
# Verification of the ArbanTv database setup script (`setup-database.js`)

A shallow embedding of the schema-applier script. The script walks a fixed
list of collection descriptors; for each it verifies the remote collection
exists, then issues one create-attribute call per field descriptor and one
create-index call per index descriptor, interleaved with fixed delays, and
classifies remote failures by inspecting the error message text.

The embedding turns the script into a pure function from an abstract remote
(mapping each API request to a response, `Except` an error-message string)
to the list of observable events the run produces, in order: API calls,
`setTimeout` delays, and console log lines.
-/

namespace ArbanTv

/-- A JavaScript value as it appears in the descriptor fields of
`setup-database.js` (defaults, min/max bounds): `null`, booleans, numbers
(all integral in the script), and strings. -/
inductive JsVal where
  | null
  | bool (b : Bool)
  | int (n : Int)
  | str (s : String)
  deriving Repr, DecidableEq

/-- JavaScript truthiness of a `JsVal`: `null`, `false`, `0` and `""` are
falsy, everything else truthy. -/
def JsVal.truthy : JsVal → Bool
  | .null => false
  | .bool b => b
  | .int n => n != 0
  | .str s => s != ""

/-- JS `x || null` applied to a possibly-undefined object property
(`attr.default || null`, `attr.min || null`, `attr.max || null`):
an absent (`undefined`) or falsy value collapses to `null`. -/
def jsOrNull : Option JsVal → JsVal
  | none => .null
  | some v => if v.truthy then v else .null

/-- JS `String.prototype.includes`: substring containment, as used by the
error classifiers (`error.message.includes("already exists")` etc.). -/
def jsIncludes (s pat : String) : Bool := decide (pat.data <:+: s.data)

/-- A field (attribute) descriptor, as declared in the `attributes` arrays of
the script. `size`, `default`, `array`, `min`, `max` are optional object
properties (absent = JS `undefined`). -/
structure Attr where
  key : String
  type : String
  size : Option Nat := none
  required : Bool := false
  default : Option JsVal := none
  array : Option Bool := none
  min : Option JsVal := none
  max : Option JsVal := none
  deriving Repr, DecidableEq

/-- An index descriptor, as declared in the `indexes` arrays of the script.
`orders` and `unique` are optional object properties. -/
structure IndexDesc where
  key : String
  type : String
  attributes : List String
  orders : Option (List String) := none
  unique : Option Bool := none
  deriving Repr, DecidableEq

/-- A collection descriptor: external id (an environment variable, possibly
undefined), display name (`ID.unique()` in the script, opaque here), and its
field and index descriptors. -/
structure Collection where
  id : Option String
  name : String
  attributes : List Attr
  indexes : List IndexDesc
  deriving Repr, DecidableEq

/-- The environment variables the script reads (besides endpoint/project/key,
which only configure the SDK client and never influence control flow). -/
structure Env where
  APPWRITE_DATABASE_ID : String
  CREATORS_COLLECTION_ID : Option String := none
  VIDEOS_COLLECTION_ID : Option String := none
  COMMENTS_COLLECTION_ID : Option String := none
  TAGS_COLLECTION_ID : Option String := none

/-- A remote API request, with exactly the arguments the script passes.
Each `create*Attribute` variant mirrors one `databases.create…Attribute`
call site; `createIndex` mirrors the `databases.createIndex` call site
(database id, collection id, key, type, attribute keys, orders). -/
inductive ApiCall where
  | getCollection (databaseId collectionId : String)
  | createStringAttribute (databaseId collectionId key : String)
      (size : Option Nat) (required : Bool) (default : JsVal) (array : Bool)
  | createIntegerAttribute (databaseId collectionId key : String)
      (required : Bool) (min max default : JsVal) (array : Bool)
  | createFloatAttribute (databaseId collectionId key : String)
      (required : Bool) (min max default : JsVal) (array : Bool)
  | createBooleanAttribute (databaseId collectionId key : String)
      (required : Bool) (default : JsVal) (array : Bool)
  | createDatetimeAttribute (databaseId collectionId key : String)
      (required : Bool) (default : JsVal) (array : Bool)
  | createIndex (databaseId collectionId key type : String)
      (attributes : List String) (orders : List String)
  deriving Repr, DecidableEq

/-- `true` on the schema-creating requests (everything but `getCollection`). -/
def ApiCall.isCreate : ApiCall → Bool
  | .getCollection .. => false
  | _ => true

/-- One console log line of the script, by its bracketed tag and template. -/
inductive LogEvent where
  | start
  | settingUpCollection (name : String) (id : Option String)
  | errMissingCollectionId (name : String)
  | okCollectionFound (name : String)
  | processCreatingAttributes (name : String)
  | okCreatedAttribute (key type : String) (array : Bool)
  | skipAttributeExists (key : String)
  | errCreateAttribute (key msg : String)
  | warnUnknownAttributeType (type key : String)
  | waitAttributesReady
  | creatingIndexes (name : String)
  | okCreatedIndex (key : String)
  | skipIndexExists (key : String)
  | errCreateIndex (key msg : String)
  | errCollectionNotFound (name : String) (id : String)
  | errCollectionSetup (name msg : String)
  | successSetupCompleted
  | infoSummary
  | successSchemaReady
  deriving Repr, DecidableEq

/-- An observable event of the run: an awaited API request, a `setTimeout`
delay of the given milliseconds, or a console log line. -/
inductive Event where
  | call (c : ApiCall)
  | delay (ms : Nat)
  | log (l : LogEvent)
  deriving Repr, DecidableEq

/-- The abstract remote service: each awaited request either resolves
(`ok`) or rejects with an error whose `.message` is the given string. -/
structure Remote where
  respond : ApiCall → Except String Unit

/-- The remote on which every request succeeds (fresh database, no
conflicts, no failures). -/
def allOk : Remote := ⟨fun _ => .ok ()⟩

/-- The `switch (attr.type)` of the script: the create-attribute request
issued for a field descriptor, or `none` for an unknown type (the `default:`
branch, which issues no request). Mirrors each call site's argument list,
including `attr.default || null`, `attr.min || null`, `attr.max || null`
and `attr.array || false`. -/
def attrCall (databaseId collectionId : String) (attr : Attr) : Option ApiCall :=
  match attr.type with
  | "string" => some (.createStringAttribute databaseId collectionId attr.key
      attr.size attr.required (jsOrNull attr.default) (attr.array.getD false))
  | "integer" => some (.createIntegerAttribute databaseId collectionId attr.key
      attr.required (jsOrNull attr.min) (jsOrNull attr.max)
      (jsOrNull attr.default) (attr.array.getD false))
  | "double" => some (.createFloatAttribute databaseId collectionId attr.key
      attr.required (jsOrNull attr.min) (jsOrNull attr.max)
      (jsOrNull attr.default) (attr.array.getD false))
  | "boolean" => some (.createBooleanAttribute databaseId collectionId attr.key
      attr.required (jsOrNull attr.default) (attr.array.getD false))
  | "datetime" => some (.createDatetimeAttribute databaseId collectionId attr.key
      attr.required (jsOrNull attr.default) (attr.array.getD false))
  | _ => none

/-- The `catch (attrError)` classifier: a message containing
`"already exists"` or `"Attribute already exists"` is logged as a SKIP,
anything else as an ERROR. -/
def classifyAttrError (key msg : String) : LogEvent :=
  if jsIncludes msg "already exists" || jsIncludes msg "Attribute already exists" then
    .skipAttributeExists key
  else
    .errCreateAttribute key msg

/-- One iteration of the attribute loop: unknown type logs a WARN and
`continue`s (no request, no delay); otherwise the request is awaited, a
success logs OK and sleeps 100ms, a rejection is classified (no delay). -/
def attrStep (remote : Remote) (databaseId collectionId : String) (attr : Attr) :
    List Event :=
  match attrCall databaseId collectionId attr with
  | none => [.log (.warnUnknownAttributeType attr.type attr.key)]
  | some c =>
      .call c ::
        match remote.respond c with
        | .ok _ => [.log (.okCreatedAttribute attr.key attr.type (attr.array.getD false)),
            .delay 100]
        | .error msg => [.log (classifyAttrError attr.key msg)]

/-- The `databases.createIndex` request for an index descriptor: key, type,
attribute keys, and `index.orders || []`. (The descriptor's `unique`
property is not among the arguments the script passes.) -/
def indexCall (databaseId collectionId : String) (idx : IndexDesc) : ApiCall :=
  .createIndex databaseId collectionId idx.key idx.type idx.attributes (idx.orders.getD [])

/-- The `catch (indexError)` classifier: a message containing
`"already exists"` or `"Index already exists"` is logged as a SKIP,
anything else as an ERROR. -/
def classifyIndexError (key msg : String) : LogEvent :=
  if jsIncludes msg "already exists" || jsIncludes msg "Index already exists" then
    .skipIndexExists key
  else
    .errCreateIndex key msg

/-- One iteration of the index loop: the request is awaited, a success logs
OK and sleeps 200ms, a rejection is classified (no delay). -/
def indexStep (remote : Remote) (databaseId collectionId : String) (idx : IndexDesc) :
    List Event :=
  .call (indexCall databaseId collectionId idx) ::
    match remote.respond (indexCall databaseId collectionId idx) with
    | .ok _ => [.log (.okCreatedIndex idx.key), .delay 200]
    | .error msg => [.log (classifyIndexError idx.key msg)]

/-- One iteration of the collection loop. A falsy id (`undefined` or `""`)
logs a config error and `continue`s. Otherwise `getCollection` is awaited;
a rejection is classified by the outer `catch` (`"not found"` vs other) and
the collection is abandoned. On success the attribute loop runs, then the
3000ms wait, then (if any indexes are declared) the index loop. -/
def processCollection (remote : Remote) (databaseId : String) (c : Collection) :
    List Event :=
  .log (.settingUpCollection c.name c.id) ::
    match c.id with
    | none => [.log (.errMissingCollectionId c.name)]
    | some cid =>
        if cid = "" then [.log (.errMissingCollectionId c.name)]
        else
          .call (.getCollection databaseId cid) ::
            match remote.respond (.getCollection databaseId cid) with
            | .error msg =>
                if jsIncludes msg "not found" then
                  [.log (.errCollectionNotFound c.name cid)]
                else
                  [.log (.errCollectionSetup c.name msg)]
            | .ok _ =>
                [.log (.okCollectionFound c.name), .log (.processCreatingAttributes c.name)]
                  ++ (c.attributes.flatMap (attrStep remote databaseId cid))
                  ++ [.log .waitAttributesReady, .delay 3000]
                  ++ (if c.indexes.length > 0 then
                        .log (.creatingIndexes c.name) ::
                          c.indexes.flatMap (indexStep remote databaseId cid)
                      else [])

/-- The declared `collections` array of the script, verbatim: creators,
videos, comments, tags. `names` stands for the fresh `ID.unique()` display
names (which only ever appear in log lines). -/
def declaredCollections (env : Env) (names : Nat → String) : List Collection :=
  [ { id := env.CREATORS_COLLECTION_ID
      name := names 0
      attributes :=
        [ { key := "user_id", type := "string", size := some 255, required := true },
          { key := "channel_name", type := "string", size := some 256, required := true },
          { key := "handle", type := "string", size := some 50, required := true },
          { key := "avatar_url", type := "string", size := some 2048, required := false },
          { key := "banner_url", type := "string", size := some 2048, required := false },
          { key := "bio", type := "string", size := some 2000, required := false },
          { key := "subscribers", type := "integer", required := true, default := some (.int 0) },
          { key := "total_views", type := "integer", required := true, default := some (.int 0) },
          { key := "is_verified", type := "boolean", required := true, default := some (.bool false) } ]
      indexes :=
        [ { key := "user_id_index", type := "key", attributes := ["user_id"] },
          { key := "handle_index", type := "key", attributes := ["handle"], unique := some true } ] },
    { id := env.VIDEOS_COLLECTION_ID
      name := names 1
      attributes :=
        [ { key := "title", type := "string", size := some 256, required := true },
          { key := "description", type := "string", size := some 5000, required := false },
          { key := "creator_id", type := "string", size := some 255, required := true },
          { key := "video_file_id", type := "string", size := some 255, required := true },
          { key := "thumbnail_url", type := "string", size := some 2048, required := true },
          { key := "duration", type := "integer", required := true },
          { key := "genre", type := "string", size := some 50, required := true },
          { key := "tags", type := "string", size := some 5000, required := false, array := some true },
          { key := "status", type := "string", size := some 20, required := true, default := some (.str "draft") },
          { key := "view_count", type := "integer", required := true, default := some (.int 0) },
          { key := "like_count", type := "integer", required := true, default := some (.int 0) },
          { key := "is_premium", type := "boolean", required := true, default := some (.bool false) },
          { key := "release_date", type := "datetime", required := true } ]
      indexes :=
        [ { key := "creator_index", type := "key", attributes := ["creator_id"] },
          { key := "status_genre_index", type := "key", attributes := ["status", "genre"] } ] },
    { id := env.COMMENTS_COLLECTION_ID
      name := names 2
      attributes :=
        [ { key := "video_id", type := "string", size := some 255, required := true },
          { key := "user_id", type := "string", size := some 255, required := true },
          { key := "content", type := "string", size := some 2000, required := true },
          { key := "parent_id", type := "string", size := some 255, required := false },
          { key := "likes", type := "integer", required := true, default := some (.int 0) },
          { key := "is_deleted", type := "boolean", required := true, default := some (.bool false) } ]
      indexes :=
        [ { key := "video_index", type := "key", attributes := ["video_id"] },
          { key := "parent_index", type := "key", attributes := ["parent_id"] } ] },
    { id := env.TAGS_COLLECTION_ID
      name := names 3
      attributes :=
        [ { key := "name", type := "string", size := some 50, required := true },
          { key := "count", type := "integer", required := true, default := some (.int 0) } ]
      indexes :=
        [ { key := "name_index", type := "key", attributes := ["name"], unique := some true } ] } ]

/-- The body of `setupDatabase()`: the start log, the collection loop over
the declared collections, and the closing summary logs. -/
def setupDatabase (remote : Remote) (env : Env) (names : Nat → String) : List Event :=
  .log .start ::
    (declaredCollections env names).flatMap (processCollection remote env.APPWRITE_DATABASE_ID)
      ++ [.log .successSetupCompleted, .log .infoSummary, .log .successSchemaReady]

/-- The resolution of the `setupDatabase()` promise. Every remote rejection
is consumed by one of the script's inner `catch` blocks (per-attribute,
per-index, per-collection), so the outer try/catch never sees an exception
and the promise always resolves with the full trace. -/
def setupDatabaseResult (remote : Remote) (env : Env) (names : Nat → String) :
    Except String (List Event) :=
  .ok (setupDatabase remote env names)

/-- The module entry point's exit code:
`.then(() => process.exit(0)).catch(() => process.exit(1))`. -/
def mainExitCode (remote : Remote) (env : Env) (names : Nat → String) : Nat :=
  match setupDatabaseResult remote env names with
  | .ok _ => 0
  | .error _ => 1

/-- `true` on the five create-attribute request events. -/
def Event.isFieldCall : Event → Bool
  | .call (.createStringAttribute ..) => true
  | .call (.createIntegerAttribute ..) => true
  | .call (.createFloatAttribute ..) => true
  | .call (.createBooleanAttribute ..) => true
  | .call (.createDatetimeAttribute ..) => true
  | _ => false

/-- `true` on the create-index request events. -/
def Event.isIndexCall : Event → Bool
  | .call (.createIndex ..) => true
  | _ => false

/-- The create-attribute request events of a trace, in order. -/
def fieldCalls (t : List Event) : List Event := t.filter Event.isFieldCall

/-- The create-index request events of a trace, in order. -/
def indexCalls (t : List Event) : List Event := t.filter Event.isIndexCall

/-- All API request events of a trace, in order. -/
def apiCalls (t : List Event) : List Event :=
  t.filter fun e => match e with
    | .call _ => true
    | _ => false

/-- Number of events of a trace satisfying `p`. -/
def countP (p : Event → Bool) (t : List Event) : Nat := (t.filter p).length

/-- Number of occurrences of one event in a trace. -/
def countEv (t : List Event) (e : Event) : Nat :=
  countP (fun x => decide (x = e)) t

/-- `true` on an OK-created-attribute log line. -/
def isOkAttrLog : Event → Bool
  | .log (.okCreatedAttribute ..) => true
  | _ => false

/-- `true` on an OK-created-index log line. -/
def isOkIndexLog : Event → Bool
  | .log (.okCreatedIndex _) => true
  | _ => false

/-- `true` on either kind of OK-created log line. -/
def isOkLog (e : Event) : Bool := isOkAttrLog e || isOkIndexLog e

/-- Number of OK-created-attribute log lines in a trace. -/
def countOkAttrLogs (t : List Event) : Nat := countP isOkAttrLog t

/-- Number of OK-created-index log lines in a trace. -/
def countOkIndexLogs (t : List Event) : Nat := countP isOkIndexLog t

/-- `true` on a SKIP (already-exists) log line, attribute or index. -/
def isSkipLog : Event → Bool
  | .log (.skipAttributeExists _) => true
  | .log (.skipIndexExists _) => true
  | _ => false

/-- Number of SKIP (already-exists) log lines in a trace. -/
def countSkipLogs (t : List Event) : Nat := countP isSkipLog t

/-- `true` when a trace contains an attribute- or index-creation ERROR log
(the non-conflict failure branch of either classifier). -/
def hasCreateErrorLog (t : List Event) : Bool :=
  t.any fun e => match e with
    | .log (.errCreateAttribute ..) => true
    | .log (.errCreateIndex ..) => true
    | _ => false

/-- The pacing discipline of the script: an OK-created-attribute log line is
immediately followed by the 100ms rate-limit delay, and an OK-created-index
log line by the 200ms one. (Stated on adjacent trace events via
`List.Chain'`.) -/
def delayDiscipline (a b : Event) : Prop :=
  (isOkAttrLog a = true → b = .delay 100) ∧ (isOkIndexLog a = true → b = .delay 200)

/-- The concrete environment used to instantiate closed statements: every
collection id configured and nonempty. -/
def envAllSet : Env :=
  { APPWRITE_DATABASE_ID := "db"
    CREATORS_COLLECTION_ID := some "creators"
    VIDEOS_COLLECTION_ID := some "videos"
    COMMENTS_COLLECTION_ID := some "comments"
    TAGS_COLLECTION_ID := some "tags" }

/-- A fixed choice for the `ID.unique()` display names. -/
def names0 : Nat → String := fun _ => "unique"

/-- A remote whose collection lookups succeed but on which every create
request rejects with an already-exists conflict: a database to which the
whole schema was applied by a prior run. -/
def conflictRemote : Remote :=
  ⟨fun q => match q with
    | .getCollection .. => .ok ()
    | _ => .error "Attribute already exists"⟩

/-- A remote on which every request rejects with a not-found error. -/
def notFoundRemote : Remote :=
  ⟨fun _ => .error "Collection not found"⟩

/-- A remote whose collection lookups succeed but on which every create
request rejects with a non-conflict error. -/
def deniedRemote : Remote :=
  ⟨fun q => match q with
    | .getCollection .. => .ok ()
    | _ => .error "user is not authorized"⟩

/-- A small one-field collection descriptor used to instantiate closed
statements. -/
def sampleCollection : Collection :=
  { id := some "c1", name := "sample",
    attributes := [{ key := "k", type := "string", size := some 10, required := true }],
    indexes := [] }

/-- A collection descriptor with fields and an index but no configured id. -/
def noIdCollection : Collection :=
  { id := none, name := "orphan",
    attributes := [{ key := "k", type := "string", size := some 10, required := true }],
    indexes := [{ key := "k_index", type := "key", attributes := ["k"] }] }

/-! ## Trace algebra -/

lemma countP_append (p : Event → Bool) (s t : List Event) :
    countP p (s ++ t) = countP p s + countP p t := by
  simp [countP, List.filter_append]

lemma countP_flatMap_zero {α : Type} (p : Event → Bool) (l : List α) (f : α → List Event)
    (h : ∀ a, countP p (f a) = 0) : countP p (l.flatMap f) = 0 := by
  induction l with
  | nil => rfl
  | cons a t ih => rw [List.flatMap_cons, countP_append, h, ih]

lemma countP_flatMap_congr {α : Type} (p q : Event → Bool) (l : List α) (f : α → List Event)
    (h : ∀ a, countP p (f a) = countP q (f a)) :
    countP p (l.flatMap f) = countP q (l.flatMap f) := by
  induction l with
  | nil => rfl
  | cons a t ih => rw [List.flatMap_cons, countP_append, countP_append, h, ih]

lemma fieldCalls_append (s t : List Event) :
    fieldCalls (s ++ t) = fieldCalls s ++ fieldCalls t := by
  simp [fieldCalls, List.filter_append]

lemma indexCalls_append (s t : List Event) :
    indexCalls (s ++ t) = indexCalls s ++ indexCalls t := by
  simp [indexCalls, List.filter_append]

lemma apiCalls_append (s t : List Event) :
    apiCalls (s ++ t) = apiCalls s ++ apiCalls t := by
  simp [apiCalls, List.filter_append]

lemma hasCreateErrorLog_append (s t : List Event) :
    hasCreateErrorLog (s ++ t) = (hasCreateErrorLog s || hasCreateErrorLog t) := by
  simp [hasCreateErrorLog, List.any_append]

/-! ## Facts about the request an attribute descriptor produces -/

lemma attrCall_isCreate {databaseId collectionId : String} {a : Attr} {c : ApiCall}
    (h : attrCall databaseId collectionId a = some c) : c.isCreate = true := by
  unfold attrCall at h
  split at h <;>
    first
      | exact Option.noConfusion h
      | (injection h with h2; subst h2; rfl)

lemma isFieldCall_attrCall {databaseId collectionId : String} {a : Attr} {c : ApiCall}
    (h : attrCall databaseId collectionId a = some c) :
    Event.isFieldCall (.call c) = true := by
  unfold attrCall at h
  split at h <;>
    first
      | exact Option.noConfusion h
      | (injection h with h2; subst h2; rfl)

lemma isIndexCall_attrCall {databaseId collectionId : String} {a : Attr} {c : ApiCall}
    (h : attrCall databaseId collectionId a = some c) :
    Event.isIndexCall (.call c) = false := by
  unfold attrCall at h
  split at h <;>
    first
      | exact Option.noConfusion h
      | (injection h with h2; subst h2; rfl)

lemma attrCall_of_unknown_type {databaseId collectionId : String} {a : Attr}
    (h : a.type ∉ ["string", "integer", "double", "boolean", "datetime"]) :
    attrCall databaseId collectionId a = none := by
  unfold attrCall
  split <;> simp_all

/-! ## The three shapes of an attribute-loop iteration -/

lemma attrStep_unknown {databaseId collectionId : String} {a : Attr} (r : Remote)
    (h : attrCall databaseId collectionId a = none) :
    attrStep r databaseId collectionId a
      = [.log (.warnUnknownAttributeType a.type a.key)] := by
  unfold attrStep
  simp only [h]

lemma attrStep_ok {databaseId collectionId : String} {a : Attr} {c : ApiCall} {r : Remote}
    {u : Unit} (h : attrCall databaseId collectionId a = some c)
    (hr : r.respond c = .ok u) :
    attrStep r databaseId collectionId a
      = [.call c, .log (.okCreatedAttribute a.key a.type (a.array.getD false)), .delay 100] := by
  unfold attrStep
  simp only [h, hr]

lemma attrStep_err {databaseId collectionId : String} {a : Attr} {c : ApiCall} {r : Remote}
    {m : String} (h : attrCall databaseId collectionId a = some c)
    (hr : r.respond c = .error m) :
    attrStep r databaseId collectionId a
      = [.call c, .log (classifyAttrError a.key m)] := by
  unfold attrStep
  simp only [h, hr]

/-- Case analysis on an attribute-loop iteration along the three shapes. -/
lemma attrStep_cases (r : Remote) (databaseId collectionId : String) (a : Attr)
    (motive : List Event → Prop)
    (hnone : attrCall databaseId collectionId a = none →
      motive [.log (.warnUnknownAttributeType a.type a.key)])
    (hok : ∀ c u, attrCall databaseId collectionId a = some c → r.respond c = .ok u →
      motive [.call c, .log (.okCreatedAttribute a.key a.type (a.array.getD false)), .delay 100])
    (herr : ∀ c m, attrCall databaseId collectionId a = some c → r.respond c = .error m →
      motive [.call c, .log (classifyAttrError a.key m)]) :
    motive (attrStep r databaseId collectionId a) := by
  cases h : attrCall databaseId collectionId a with
  | none => rw [attrStep_unknown r h]; exact hnone h
  | some c =>
      cases hr : r.respond c with
      | ok u => rw [attrStep_ok h hr]; exact hok c u h hr
      | error m => rw [attrStep_err h hr]; exact herr c m h hr

/-! ## Reductions of the event predicates -/

lemma isFieldCall_log (l : LogEvent) : Event.isFieldCall (.log l) = false := rfl

lemma isFieldCall_getCollection (databaseId collectionId : String) :
    Event.isFieldCall (.call (.getCollection databaseId collectionId)) = false := rfl

lemma isIndexCall_getCollection (databaseId collectionId : String) :
    Event.isIndexCall (.call (.getCollection databaseId collectionId)) = false := rfl

lemma isFieldCall_delay (ms : Nat) : Event.isFieldCall (.delay ms) = false := rfl

lemma isIndexCall_log (l : LogEvent) : Event.isIndexCall (.log l) = false := rfl

lemma isIndexCall_delay (ms : Nat) : Event.isIndexCall (.delay ms) = false := rfl

lemma isOkAttrLog_call (c : ApiCall) : isOkAttrLog (.call c) = false := rfl

lemma isOkAttrLog_delay (ms : Nat) : isOkAttrLog (.delay ms) = false := rfl

lemma isOkIndexLog_call (c : ApiCall) : isOkIndexLog (.call c) = false := rfl

lemma isOkIndexLog_delay (ms : Nat) : isOkIndexLog (.delay ms) = false := rfl

lemma isSkipLog_call (c : ApiCall) : isSkipLog (.call c) = false := rfl

lemma isSkipLog_log_creatingIndexes (nm : String) :
    isSkipLog (.log (.creatingIndexes nm)) = false := rfl

lemma isSkipLog_delay (ms : Nat) : isSkipLog (.delay ms) = false := rfl

lemma isOkAttrLog_classifyAttrError (k m : String) :
    isOkAttrLog (.log (classifyAttrError k m)) = false := by
  unfold classifyAttrError
  split <;> rfl

lemma isOkIndexLog_classifyAttrError (k m : String) :
    isOkIndexLog (.log (classifyAttrError k m)) = false := by
  unfold classifyAttrError
  split <;> rfl

lemma isOkAttrLog_classifyIndexError (k m : String) :
    isOkAttrLog (.log (classifyIndexError k m)) = false := by
  unfold classifyIndexError
  split <;> rfl

lemma isOkIndexLog_classifyIndexError (k m : String) :
    isOkIndexLog (.log (classifyIndexError k m)) = false := by
  unfold classifyIndexError
  split <;> rfl

/-! ## Per-iteration characterizations: the attribute loop body -/

lemma fieldCalls_attrStep (r : Remote) (databaseId collectionId : String) (a : Attr) :
    fieldCalls (attrStep r databaseId collectionId a)
      = ((attrCall databaseId collectionId a).map Event.call).toList := by
  refine attrStep_cases r databaseId collectionId a
    (motive := fun t => fieldCalls t = ((attrCall databaseId collectionId a).map Event.call).toList)
    ?_ ?_ ?_
  · intro h; simp [h, fieldCalls, List.filter, isFieldCall_log]
  · intro c u h hr
    simp [h, fieldCalls, List.filter, isFieldCall_attrCall h, isFieldCall_log, isFieldCall_delay]
  · intro c m h hr
    simp [h, fieldCalls, List.filter, isFieldCall_attrCall h, isFieldCall_log]

lemma indexCalls_attrStep (r : Remote) (databaseId collectionId : String) (a : Attr) :
    indexCalls (attrStep r databaseId collectionId a) = [] := by
  refine attrStep_cases r databaseId collectionId a
    (motive := fun t => indexCalls t = []) ?_ ?_ ?_
  · intro h; rfl
  · intro c u h hr
    simp [indexCalls, List.filter, isIndexCall_attrCall h, isIndexCall_log, isIndexCall_delay]
  · intro c m h hr
    simp [indexCalls, List.filter, isIndexCall_attrCall h, isIndexCall_log]

lemma countEv_attrStep_delay100 (r : Remote) (databaseId collectionId : String) (a : Attr) :
    countEv (attrStep r databaseId collectionId a) (.delay 100)
      = countOkAttrLogs (attrStep r databaseId collectionId a) := by
  refine attrStep_cases r databaseId collectionId a
    (motive := fun t => countEv t (.delay 100) = countOkAttrLogs t) ?_ ?_ ?_
  · intro h; rfl
  · intro c u h hr; rfl
  · intro c m h hr
    simp [countEv, countOkAttrLogs, countP, List.filter, isOkAttrLog_classifyAttrError,
      isOkAttrLog_call]

lemma countEv_attrStep_delay200 (r : Remote) (databaseId collectionId : String) (a : Attr) :
    countEv (attrStep r databaseId collectionId a) (.delay 200) = 0 := by
  refine attrStep_cases r databaseId collectionId a
    (motive := fun t => countEv t (.delay 200) = 0) ?_ ?_ ?_
  · intro h; rfl
  · intro c u h hr; rfl
  · intro c m h hr; rfl

lemma countEv_attrStep_delay3000 (r : Remote) (databaseId collectionId : String) (a : Attr) :
    countEv (attrStep r databaseId collectionId a) (.delay 3000) = 0 := by
  refine attrStep_cases r databaseId collectionId a
    (motive := fun t => countEv t (.delay 3000) = 0) ?_ ?_ ?_
  · intro h; rfl
  · intro c u h hr; rfl
  · intro c m h hr; rfl

lemma countOkIndexLogs_attrStep (r : Remote) (databaseId collectionId : String) (a : Attr) :
    countOkIndexLogs (attrStep r databaseId collectionId a) = 0 := by
  refine attrStep_cases r databaseId collectionId a
    (motive := fun t => countOkIndexLogs t = 0) ?_ ?_ ?_
  · intro h; rfl
  · intro c u h hr; rfl
  · intro c m h hr
    simp [countOkIndexLogs, countP, List.filter, isOkIndexLog_classifyAttrError,
      isOkIndexLog_call]

/-! ## Per-iteration characterizations: the index loop body -/

lemma indexStep_ok {databaseId collectionId : String} {i : IndexDesc} {r : Remote} {u : Unit}
    (hr : r.respond (indexCall databaseId collectionId i) = .ok u) :
    indexStep r databaseId collectionId i
      = [.call (indexCall databaseId collectionId i), .log (.okCreatedIndex i.key), .delay 200] := by
  unfold indexStep
  simp only [hr]

lemma indexStep_err {databaseId collectionId : String} {i : IndexDesc} {r : Remote} {m : String}
    (hr : r.respond (indexCall databaseId collectionId i) = .error m) :
    indexStep r databaseId collectionId i
      = [.call (indexCall databaseId collectionId i), .log (classifyIndexError i.key m)] := by
  unfold indexStep
  simp only [hr]

/-- Case analysis on an index-loop iteration along its two shapes. -/
lemma indexStep_cases (r : Remote) (databaseId collectionId : String) (i : IndexDesc)
    (motive : List Event → Prop)
    (hok : ∀ u, r.respond (indexCall databaseId collectionId i) = .ok u →
      motive [.call (indexCall databaseId collectionId i), .log (.okCreatedIndex i.key), .delay 200])
    (herr : ∀ m, r.respond (indexCall databaseId collectionId i) = .error m →
      motive [.call (indexCall databaseId collectionId i), .log (classifyIndexError i.key m)]) :
    motive (indexStep r databaseId collectionId i) := by
  cases hr : r.respond (indexCall databaseId collectionId i) with
  | ok u => rw [indexStep_ok hr]; exact hok u hr
  | error m => rw [indexStep_err hr]; exact herr m hr

lemma fieldCalls_indexStep (r : Remote) (databaseId collectionId : String) (i : IndexDesc) :
    fieldCalls (indexStep r databaseId collectionId i) = [] := by
  refine indexStep_cases r databaseId collectionId i (motive := fun t => fieldCalls t = []) ?_ ?_
  · intro u hr; rfl
  · intro m hr; rfl

lemma indexCalls_indexStep (r : Remote) (databaseId collectionId : String) (i : IndexDesc) :
    indexCalls (indexStep r databaseId collectionId i)
      = [.call (indexCall databaseId collectionId i)] := by
  refine indexStep_cases r databaseId collectionId i
    (motive := fun t => indexCalls t = [.call (indexCall databaseId collectionId i)]) ?_ ?_
  · intro u hr; rfl
  · intro m hr; rfl

lemma countEv_indexStep_delay200 (r : Remote) (databaseId collectionId : String) (i : IndexDesc) :
    countEv (indexStep r databaseId collectionId i) (.delay 200)
      = countOkIndexLogs (indexStep r databaseId collectionId i) := by
  refine indexStep_cases r databaseId collectionId i
    (motive := fun t => countEv t (.delay 200) = countOkIndexLogs t) ?_ ?_
  · intro u hr; rfl
  · intro m hr
    simp [countEv, countOkIndexLogs, countP, List.filter, isOkIndexLog_classifyIndexError,
      isOkIndexLog_call]

lemma countEv_indexStep_delay100 (r : Remote) (databaseId collectionId : String) (i : IndexDesc) :
    countEv (indexStep r databaseId collectionId i) (.delay 100) = 0 := by
  refine indexStep_cases r databaseId collectionId i
    (motive := fun t => countEv t (.delay 100) = 0) ?_ ?_
  · intro u hr; rfl
  · intro m hr; rfl

lemma countEv_indexStep_delay3000 (r : Remote) (databaseId collectionId : String)
    (i : IndexDesc) :
    countEv (indexStep r databaseId collectionId i) (.delay 3000) = 0 := by
  refine indexStep_cases r databaseId collectionId i
    (motive := fun t => countEv t (.delay 3000) = 0) ?_ ?_
  · intro u hr; rfl
  · intro m hr; rfl

lemma countOkAttrLogs_indexStep (r : Remote) (databaseId collectionId : String)
    (i : IndexDesc) :
    countOkAttrLogs (indexStep r databaseId collectionId i) = 0 := by
  refine indexStep_cases r databaseId collectionId i
    (motive := fun t => countOkAttrLogs t = 0) ?_ ?_
  · intro u hr; rfl
  · intro m hr
    simp [countOkAttrLogs, countP, List.filter, isOkAttrLog_classifyIndexError,
      isOkAttrLog_call]

/-! ## Phase-level characterizations (loops as `flatMap`) -/

lemma fieldCalls_attrPhase (r : Remote) (databaseId collectionId : String) (l : List Attr) :
    fieldCalls (l.flatMap (attrStep r databaseId collectionId))
      = l.filterMap (fun a => (attrCall databaseId collectionId a).map Event.call) := by
  induction l with
  | nil => rfl
  | cons a t ih =>
      rw [List.flatMap_cons, fieldCalls_append, ih, List.filterMap_cons, fieldCalls_attrStep]
      cases attrCall databaseId collectionId a <;> rfl

lemma indexCalls_attrPhase (r : Remote) (databaseId collectionId : String) (l : List Attr) :
    indexCalls (l.flatMap (attrStep r databaseId collectionId)) = [] := by
  induction l with
  | nil => rfl
  | cons a t ih =>
      rw [List.flatMap_cons, indexCalls_append, ih, indexCalls_attrStep]
      rfl

lemma fieldCalls_indexPhase (r : Remote) (databaseId collectionId : String)
    (l : List IndexDesc) :
    fieldCalls (l.flatMap (indexStep r databaseId collectionId)) = [] := by
  induction l with
  | nil => rfl
  | cons i t ih =>
      rw [List.flatMap_cons, fieldCalls_append, ih, fieldCalls_indexStep]
      rfl

lemma indexCalls_indexPhase (r : Remote) (databaseId collectionId : String)
    (l : List IndexDesc) :
    indexCalls (l.flatMap (indexStep r databaseId collectionId))
      = l.map (fun i => .call (indexCall databaseId collectionId i)) := by
  induction l with
  | nil => rfl
  | cons i t ih =>
      rw [List.flatMap_cons, indexCalls_append, ih, indexCalls_indexStep, List.map_cons]
      rfl

/-! ## The four shapes of a collection-loop iteration -/

lemma processCollection_noId (r : Remote) (databaseId : String) {c : Collection}
    (hid : c.id = none ∨ c.id = some "") :
    processCollection r databaseId c
      = [.log (.settingUpCollection c.name c.id), .log (.errMissingCollectionId c.name)] := by
  unfold processCollection
  rcases hid with h | h <;> rw [h]
  rfl

lemma processCollection_notFound (r : Remote) (databaseId : String) {c : Collection}
    {cid m : String} (hid : c.id = some cid) (hne : cid ≠ "")
    (hresp : r.respond (.getCollection databaseId cid) = .error m)
    (hnf : jsIncludes m "not found" = true) :
    processCollection r databaseId c
      = [.log (.settingUpCollection c.name (some cid)), .call (.getCollection databaseId cid),
         .log (.errCollectionNotFound c.name cid)] := by
  unfold processCollection
  rw [hid]
  simp [hne, hresp, hnf]

lemma processCollection_otherError (r : Remote) (databaseId : String) {c : Collection}
    {cid m : String} (hid : c.id = some cid) (hne : cid ≠ "")
    (hresp : r.respond (.getCollection databaseId cid) = .error m)
    (hnf : jsIncludes m "not found" = false) :
    processCollection r databaseId c
      = [.log (.settingUpCollection c.name (some cid)), .call (.getCollection databaseId cid),
         .log (.errCollectionSetup c.name m)] := by
  unfold processCollection
  rw [hid]
  simp [hne, hresp, hnf]

lemma processCollection_found (r : Remote) (databaseId : String) {c : Collection}
    {cid : String} {u : Unit} (hid : c.id = some cid) (hne : cid ≠ "")
    (hresp : r.respond (.getCollection databaseId cid) = .ok u) :
    processCollection r databaseId c
      = [.log (.settingUpCollection c.name (some cid)), .call (.getCollection databaseId cid),
         .log (.okCollectionFound c.name), .log (.processCreatingAttributes c.name)]
        ++ c.attributes.flatMap (attrStep r databaseId cid)
        ++ [.log .waitAttributesReady, .delay 3000]
        ++ (if c.indexes.length > 0 then
              .log (.creatingIndexes c.name) :: c.indexes.flatMap (indexStep r databaseId cid)
            else []) := by
  unfold processCollection
  rw [hid]
  simp [hne, hresp]

/-! ## The index block (the guarded index loop) -/

lemma fieldCalls_indexBlock (r : Remote) (databaseId cid nm : String) (l : List IndexDesc) :
    fieldCalls (if l.length > 0 then
        .log (.creatingIndexes nm) :: l.flatMap (indexStep r databaseId cid)
      else []) = [] := by
  split
  · simpa [fieldCalls, List.filter_cons, isFieldCall_log] using
      fieldCalls_indexPhase r databaseId cid l
  · rfl

lemma indexCalls_indexBlock (r : Remote) (databaseId cid nm : String) (l : List IndexDesc) :
    indexCalls (if l.length > 0 then
        .log (.creatingIndexes nm) :: l.flatMap (indexStep r databaseId cid)
      else []) = l.map (fun i => .call (indexCall databaseId cid i)) := by
  split
  · simpa [indexCalls, List.filter_cons, isIndexCall_log] using
      indexCalls_indexPhase r databaseId cid l
  · rename_i h
    have hl : l = [] := List.eq_nil_of_length_eq_zero (Nat.eq_zero_of_not_pos h)
    subst hl
    rfl

lemma countP_indexBlock_zero (p : Event → Bool) (r : Remote) (databaseId cid nm : String)
    (l : List IndexDesc) (hlog : p (.log (.creatingIndexes nm)) = false)
    (hstep : ∀ i, countP p (indexStep r databaseId cid i) = 0) :
    countP p (if l.length > 0 then
        .log (.creatingIndexes nm) :: l.flatMap (indexStep r databaseId cid)
      else []) = 0 := by
  split
  · simpa [countP, List.filter_cons, hlog] using countP_flatMap_zero p l _ hstep
  · rfl

/-! ## Create calls of a whole collection iteration -/

lemma fieldCalls_processCollection_found (r : Remote) (databaseId : String) {c : Collection}
    {cid : String} {u : Unit} (hid : c.id = some cid) (hne : cid ≠ "")
    (hresp : r.respond (.getCollection databaseId cid) = .ok u) :
    fieldCalls (processCollection r databaseId c)
      = c.attributes.filterMap (fun a => (attrCall databaseId cid a).map Event.call) := by
  rw [processCollection_found r databaseId hid hne hresp,
    fieldCalls_append, fieldCalls_append, fieldCalls_append,
    fieldCalls_attrPhase, fieldCalls_indexBlock]
  simp [fieldCalls, List.filter, isFieldCall_log, isFieldCall_delay, isFieldCall_getCollection]

lemma indexCalls_processCollection_found (r : Remote) (databaseId : String) {c : Collection}
    {cid : String} {u : Unit} (hid : c.id = some cid) (hne : cid ≠ "")
    (hresp : r.respond (.getCollection databaseId cid) = .ok u) :
    indexCalls (processCollection r databaseId c)
      = c.indexes.map (fun i => .call (indexCall databaseId cid i)) := by
  rw [processCollection_found r databaseId hid hne hresp,
    indexCalls_append, indexCalls_append, indexCalls_append,
    indexCalls_attrPhase, indexCalls_indexBlock]
  simp [indexCalls, List.filter, isIndexCall_log, isIndexCall_delay, isIndexCall_getCollection]

/-! ## The pacing discipline: each success log is immediately followed by
its rate-limit delay -/

lemma delayDiscipline_of_not_ok {x : Event} (h : isOkLog x = false) (y : Event) :
    delayDiscipline x y := by
  unfold isOkLog at h
  refine ⟨fun hx => ?_, fun hx => ?_⟩ <;> rw [hx] at h <;> simp at h

lemma chain'_attrStep (r : Remote) (databaseId collectionId : String) (a : Attr) :
    List.Chain' delayDiscipline (attrStep r databaseId collectionId a) := by
  refine attrStep_cases r databaseId collectionId a
    (motive := fun t => List.Chain' delayDiscipline t) ?_ ?_ ?_
  · intro h; exact List.chain'_singleton _
  · intro c u h hr
    refine List.Chain'.cons (delayDiscipline_of_not_ok (by rfl) _)
      (List.Chain'.cons ⟨fun _ => rfl, fun hx => Bool.noConfusion hx⟩ (List.chain'_singleton _))
  · intro c m h hr
    exact List.Chain'.cons (delayDiscipline_of_not_ok (by rfl) _) (List.chain'_singleton _)

lemma chain'_indexStep (r : Remote) (databaseId collectionId : String) (i : IndexDesc) :
    List.Chain' delayDiscipline (indexStep r databaseId collectionId i) := by
  refine indexStep_cases r databaseId collectionId i
    (motive := fun t => List.Chain' delayDiscipline t) ?_ ?_
  · intro u hr
    refine List.Chain'.cons (delayDiscipline_of_not_ok (by rfl) _)
      (List.Chain'.cons ⟨fun hx => Bool.noConfusion hx, fun _ => rfl⟩ (List.chain'_singleton _))
  · intro m hr
    exact List.Chain'.cons (delayDiscipline_of_not_ok (by rfl) _) (List.chain'_singleton _)

lemma notOk_of_mem_some {y : Event} (hy : isOkLog y = false) :
    ∀ z ∈ (some y : Option Event), isOkLog z = false := by
  intro z hz
  rw [Option.mem_def] at hz
  injection hz with h
  subst h
  exact hy

lemma lastNotOk_attrStep (r : Remote) (databaseId collectionId : String) (a : Attr) :
    ∀ x ∈ (attrStep r databaseId collectionId a).getLast?, isOkLog x = false := by
  refine attrStep_cases r databaseId collectionId a
    (motive := fun t => ∀ x ∈ t.getLast?, isOkLog x = false) ?_ ?_ ?_
  · intro h; exact notOk_of_mem_some (by rfl)
  · intro c u h hr; exact notOk_of_mem_some (by rfl)
  · intro c m h hr
    refine notOk_of_mem_some ?_
    simp [isOkLog, isOkAttrLog_classifyAttrError, isOkIndexLog_classifyAttrError]

lemma lastNotOk_indexStep (r : Remote) (databaseId collectionId : String) (i : IndexDesc) :
    ∀ x ∈ (indexStep r databaseId collectionId i).getLast?, isOkLog x = false := by
  refine indexStep_cases r databaseId collectionId i
    (motive := fun t => ∀ x ∈ t.getLast?, isOkLog x = false) ?_ ?_
  · intro u hr; exact notOk_of_mem_some (by rfl)
  · intro m hr
    refine notOk_of_mem_some ?_
    simp [isOkLog, isOkAttrLog_classifyIndexError, isOkIndexLog_classifyIndexError]

lemma lastNotOk_flatMap {α : Type} (l : List α) (f : α → List Event)
    (h : ∀ a, ∀ x ∈ (f a).getLast?, isOkLog x = false) :
    ∀ x ∈ (l.flatMap f).getLast?, isOkLog x = false := by
  induction l with
  | nil => intro x hx; simp at hx
  | cons a t ih =>
      intro x hx
      rw [List.flatMap_cons] at hx
      by_cases ht : t.flatMap f = []
      · rw [ht, List.append_nil] at hx
        exact h a x hx
      · rw [List.getLast?_append_of_ne_nil _ ht] at hx
        exact ih x hx

lemma chain'_flatMap {α : Type} (l : List α) (f : α → List Event)
    (hc : ∀ a, List.Chain' delayDiscipline (f a))
    (hl : ∀ a, ∀ x ∈ (f a).getLast?, isOkLog x = false) :
    List.Chain' delayDiscipline (l.flatMap f) := by
  induction l with
  | nil => exact List.chain'_nil
  | cons a t ih =>
      rw [List.flatMap_cons]
      exact (hc a).append ih (fun x hx y _ => delayDiscipline_of_not_ok (hl a x hx) y)

/-- The whole of a collection iteration obeys the pacing discipline,
whatever the remote answers. -/
lemma chain'_processCollection (r : Remote) (databaseId : String) (c : Collection) :
    List.Chain' delayDiscipline (processCollection r databaseId c) := by
  cases hid : c.id with
  | none =>
      rw [processCollection_noId r databaseId (Or.inl hid)]
      exact List.Chain'.cons (delayDiscipline_of_not_ok (by rfl) _) (List.chain'_singleton _)
  | some cid =>
      by_cases hne : cid = ""
      · subst hne
        rw [processCollection_noId r databaseId (Or.inr hid)]
        exact List.Chain'.cons (delayDiscipline_of_not_ok (by rfl) _) (List.chain'_singleton _)
      · cases hresp : r.respond (.getCollection databaseId cid) with
        | error m =>
            by_cases hnf : jsIncludes m "not found" = true
            · rw [processCollection_notFound r databaseId hid hne hresp hnf]
              exact List.Chain'.cons (delayDiscipline_of_not_ok (by rfl) _)
                (List.Chain'.cons (delayDiscipline_of_not_ok (by rfl) _) (List.chain'_singleton _))
            · rw [processCollection_otherError r databaseId hid hne hresp
                (Bool.of_not_eq_true hnf)]
              exact List.Chain'.cons (delayDiscipline_of_not_ok (by rfl) _)
                (List.Chain'.cons (delayDiscipline_of_not_ok (by rfl) _) (List.chain'_singleton _))
        | ok u =>
            rw [processCollection_found r databaseId hid hne hresp,
              List.append_assoc, List.append_assoc]
            refine List.Chain'.append ?_ ?_ ?_
            · exact List.Chain'.cons (delayDiscipline_of_not_ok (by rfl) _)
                (List.Chain'.cons (delayDiscipline_of_not_ok (by rfl) _)
                  (List.Chain'.cons (delayDiscipline_of_not_ok (by rfl) _)
                    (List.chain'_singleton _)))
            · refine List.Chain'.append ?_ ?_ ?_
              · exact chain'_flatMap _ _ (chain'_attrStep r databaseId cid)
                  (lastNotOk_attrStep r databaseId cid)
              · refine List.Chain'.append ?_ ?_ ?_
                · exact List.Chain'.cons (delayDiscipline_of_not_ok (by rfl) _)
                    (List.chain'_singleton _)
                · split
                  · refine List.chain'_cons'.mpr ⟨fun y _ => delayDiscipline_of_not_ok (by rfl) y, ?_⟩
                    exact chain'_flatMap _ _ (chain'_indexStep r databaseId cid)
                      (lastNotOk_indexStep r databaseId cid)
                  · exact List.chain'_nil
                · intro x hx y _
                  exact delayDiscipline_of_not_ok (notOk_of_mem_some (by rfl) x hx) y
              · intro x hx y _
                exact delayDiscipline_of_not_ok (lastNotOk_flatMap _ _
                  (lastNotOk_attrStep r databaseId cid) x hx) y
            · intro x hx y _
              exact delayDiscipline_of_not_ok (notOk_of_mem_some (by rfl) x hx) y

/-! ## Pacing counts over a found collection -/

lemma count100_processCollection_found (r : Remote) (databaseId : String) {c : Collection}
    {cid : String} {u : Unit} (hid : c.id = some cid) (hne : cid ≠ "")
    (hresp : r.respond (.getCollection databaseId cid) = .ok u) :
    countEv (processCollection r databaseId c) (.delay 100)
      = countOkAttrLogs (processCollection r databaseId c) := by
  rw [countEv, countOkAttrLogs, processCollection_found r databaseId hid hne hresp]
  simp only [countP_append]
  have h1 : countP (fun x => decide (x = Event.delay 100))
      [.log (.settingUpCollection c.name (some cid)), .call (.getCollection databaseId cid),
       .log (.okCollectionFound c.name), .log (.processCreatingAttributes c.name)] = 0 := rfl
  have h2 : countP isOkAttrLog
      [.log (.settingUpCollection c.name (some cid)), .call (.getCollection databaseId cid),
       .log (.okCollectionFound c.name), .log (.processCreatingAttributes c.name)] = 0 := rfl
  have h3 := countP_flatMap_congr (fun x => decide (x = Event.delay 100)) isOkAttrLog
    c.attributes (attrStep r databaseId cid)
    (fun a => countEv_attrStep_delay100 r databaseId cid a)
  have h4 : countP (fun x => decide (x = Event.delay 100))
      [Event.log .waitAttributesReady, .delay 3000] = 0 := rfl
  have h5 : countP isOkAttrLog [Event.log .waitAttributesReady, .delay 3000] = 0 := rfl
  have h6 := countP_indexBlock_zero (fun x => decide (x = Event.delay 100)) r databaseId cid
    c.name c.indexes rfl (fun i => countEv_indexStep_delay100 r databaseId cid i)
  have h7 := countP_indexBlock_zero isOkAttrLog r databaseId cid c.name c.indexes rfl
    (fun i => countOkAttrLogs_indexStep r databaseId cid i)
  rw [h1, h2, h3, h4, h5, h6, h7]

lemma count200_processCollection_found (r : Remote) (databaseId : String) {c : Collection}
    {cid : String} {u : Unit} (hid : c.id = some cid) (hne : cid ≠ "")
    (hresp : r.respond (.getCollection databaseId cid) = .ok u) :
    countEv (processCollection r databaseId c) (.delay 200)
      = countOkIndexLogs (processCollection r databaseId c) := by
  rw [countEv, countOkIndexLogs, processCollection_found r databaseId hid hne hresp]
  simp only [countP_append]
  have h1 : countP (fun x => decide (x = Event.delay 200))
      [.log (.settingUpCollection c.name (some cid)), .call (.getCollection databaseId cid),
       .log (.okCollectionFound c.name), .log (.processCreatingAttributes c.name)] = 0 := rfl
  have h2 : countP isOkIndexLog
      [.log (.settingUpCollection c.name (some cid)), .call (.getCollection databaseId cid),
       .log (.okCollectionFound c.name), .log (.processCreatingAttributes c.name)] = 0 := rfl
  have h3 := countP_flatMap_zero (fun x => decide (x = Event.delay 200))
    c.attributes (attrStep r databaseId cid)
    (fun a => countEv_attrStep_delay200 r databaseId cid a)
  have h3' := countP_flatMap_zero isOkIndexLog c.attributes (attrStep r databaseId cid)
    (fun a => countOkIndexLogs_attrStep r databaseId cid a)
  have h4 : countP (fun x => decide (x = Event.delay 200))
      [Event.log .waitAttributesReady, .delay 3000] = 0 := rfl
  have h5 : countP isOkIndexLog [Event.log .waitAttributesReady, .delay 3000] = 0 := rfl
  have h6 : countP (fun x => decide (x = Event.delay 200))
      (if c.indexes.length > 0 then
        .log (.creatingIndexes c.name) :: c.indexes.flatMap (indexStep r databaseId cid)
      else []) = countP isOkIndexLog (if c.indexes.length > 0 then
        .log (.creatingIndexes c.name) :: c.indexes.flatMap (indexStep r databaseId cid)
      else []) := by
    split
    · simp only [countP, List.filter_cons]
      have := countP_flatMap_congr (fun x => decide (x = Event.delay 200)) isOkIndexLog
        c.indexes (indexStep r databaseId cid)
        (fun i => countEv_indexStep_delay200 r databaseId cid i)
      simpa [countP] using this
    · rfl
  rw [h1, h2, h3, h3', h4, h5, h6]

lemma count3000_decomp_processCollection_found (r : Remote) (databaseId : String)
    {c : Collection} {cid : String} {u : Unit} (hid : c.id = some cid) (hne : cid ≠ "")
    (hresp : r.respond (.getCollection databaseId cid) = .ok u) :
    ∃ A B, processCollection r databaseId c = A ++ Event.delay 3000 :: B ∧
      countEv A (.delay 3000) = 0 ∧ countEv B (.delay 3000) = 0 ∧
      indexCalls A = [] ∧ fieldCalls B = [] := by
  refine ⟨[.log (.settingUpCollection c.name (some cid)), .call (.getCollection databaseId cid),
      .log (.okCollectionFound c.name), .log (.processCreatingAttributes c.name)]
      ++ c.attributes.flatMap (attrStep r databaseId cid) ++ [.log .waitAttributesReady],
    (if c.indexes.length > 0 then
        .log (.creatingIndexes c.name) :: c.indexes.flatMap (indexStep r databaseId cid)
      else []), ?_, ?_, ?_, ?_, ?_⟩
  · rw [processCollection_found r databaseId hid hne hresp]
    simp [List.append_assoc]
  · rw [countEv, countP_append, countP_append]
    have h1 : countP (fun x => decide (x = Event.delay 3000))
        [.log (.settingUpCollection c.name (some cid)), .call (.getCollection databaseId cid),
         .log (.okCollectionFound c.name), .log (.processCreatingAttributes c.name)] = 0 := rfl
    have h2 := countP_flatMap_zero (fun x => decide (x = Event.delay 3000))
      c.attributes (attrStep r databaseId cid)
      (fun a => countEv_attrStep_delay3000 r databaseId cid a)
    have h3 : countP (fun x => decide (x = Event.delay 3000))
        [Event.log .waitAttributesReady] = 0 := rfl
    rw [h1, h2, h3]
  · exact countP_indexBlock_zero _ r databaseId cid c.name c.indexes rfl
      (fun i => countEv_indexStep_delay3000 r databaseId cid i)
  · rw [indexCalls_append, indexCalls_append, indexCalls_attrPhase]
    rfl
  · exact fieldCalls_indexBlock r databaseId cid c.name c.indexes

/-! ## Conflict (already-exists) classification -/

lemma attrStep_conflict {databaseId collectionId : String} {a : Attr} {c : ApiCall}
    {r : Remote} {m : String} (hq : attrCall databaseId collectionId a = some c)
    (hr : r.respond c = .error m) (hm : jsIncludes m "already exists" = true) :
    attrStep r databaseId collectionId a
      = [.call c, .log (.skipAttributeExists a.key)] := by
  rw [attrStep_err hq hr]
  unfold classifyAttrError
  rw [hm]
  rfl

lemma indexStep_conflict {databaseId collectionId : String} {i : IndexDesc} {r : Remote}
    {m : String} (hr : r.respond (indexCall databaseId collectionId i) = .error m)
    (hm : jsIncludes m "already exists" = true) :
    indexStep r databaseId collectionId i
      = [.call (indexCall databaseId collectionId i), .log (.skipIndexExists i.key)] := by
  rw [indexStep_err hr]
  unfold classifyIndexError
  rw [hm]
  rfl

lemma countSkipLogs_append (s t : List Event) :
    countSkipLogs (s ++ t) = countSkipLogs s + countSkipLogs t :=
  countP_append _ s t

/-- Shorthand for a remote on which every create request rejects with an
already-exists conflict (a schema fully applied by a prior run). -/
def allConflict (r : Remote) : Prop :=
  ∀ q, ApiCall.isCreate q = true →
    ∃ m, r.respond q = .error m ∧ jsIncludes m "already exists" = true

lemma skip_attrPhase_conflict (r : Remote) (databaseId collectionId : String)
    (l : List Attr) (hconf : allConflict r) :
    countSkipLogs (l.flatMap (attrStep r databaseId collectionId))
        = (l.filterMap (attrCall databaseId collectionId)).length ∧
      hasCreateErrorLog (l.flatMap (attrStep r databaseId collectionId)) = false := by
  induction l with
  | nil => exact ⟨rfl, rfl⟩
  | cons a t ih =>
      obtain ⟨ihs, ihe⟩ := ih
      rw [List.flatMap_cons, countSkipLogs_append, hasCreateErrorLog_append, ihs, ihe,
        List.filterMap_cons]
      cases h : attrCall databaseId collectionId a with
      | none =>
          rw [attrStep_unknown r h]
          simp [countSkipLogs, countP, List.filter, isSkipLog, hasCreateErrorLog]
      | some c =>
          obtain ⟨m, hr, hm⟩ := hconf c (attrCall_isCreate h)
          rw [attrStep_conflict h hr hm]
          simp [countSkipLogs, countP, List.filter, isSkipLog, hasCreateErrorLog,
            Nat.add_comm]

lemma skip_indexPhase_conflict (r : Remote) (databaseId collectionId : String)
    (l : List IndexDesc) (hconf : allConflict r) :
    countSkipLogs (l.flatMap (indexStep r databaseId collectionId)) = l.length ∧
      hasCreateErrorLog (l.flatMap (indexStep r databaseId collectionId)) = false := by
  induction l with
  | nil => exact ⟨rfl, rfl⟩
  | cons i t ih =>
      obtain ⟨ihs, ihe⟩ := ih
      rw [List.flatMap_cons, countSkipLogs_append, hasCreateErrorLog_append, ihs, ihe]
      obtain ⟨m, hr, hm⟩ := hconf (indexCall databaseId collectionId i) rfl
      rw [indexStep_conflict hr hm]
      simp [countSkipLogs, countP, List.filter, isSkipLog, hasCreateErrorLog,
        Nat.add_comm]

lemma skip_processCollection_conflict (r : Remote) (databaseId : String) {c : Collection}
    {cid : String} {u : Unit} (hid : c.id = some cid) (hne : cid ≠ "")
    (hget : r.respond (.getCollection databaseId cid) = .ok u) (hconf : allConflict r) :
    countSkipLogs (processCollection r databaseId c)
        = (c.attributes.filterMap (attrCall databaseId cid)).length + c.indexes.length ∧
      hasCreateErrorLog (processCollection r databaseId c) = false := by
  rw [processCollection_found r databaseId hid hne hget]
  obtain ⟨has, hae⟩ := skip_attrPhase_conflict r databaseId cid c.attributes hconf
  obtain ⟨his, hie⟩ := skip_indexPhase_conflict r databaseId cid c.indexes hconf
  constructor
  · rw [countSkipLogs_append, countSkipLogs_append, countSkipLogs_append, has]
    have h1 : countSkipLogs
        [.log (.settingUpCollection c.name (some cid)), .call (.getCollection databaseId cid),
         .log (.okCollectionFound c.name), .log (.processCreatingAttributes c.name)] = 0 := rfl
    have h2 : countSkipLogs [Event.log .waitAttributesReady, .delay 3000] = 0 := rfl
    have h3 : countSkipLogs (if c.indexes.length > 0 then
        .log (.creatingIndexes c.name) :: c.indexes.flatMap (indexStep r databaseId cid)
      else []) = c.indexes.length := by
      split
      · simpa [countSkipLogs, countP, List.filter_cons, isSkipLog_log_creatingIndexes]
          using his
      · rename_i h
        have hl : c.indexes = [] := List.eq_nil_of_length_eq_zero (Nat.eq_zero_of_not_pos h)
        rw [hl]
        rfl
    rw [h1, h2, h3]
    omega
  · rw [hasCreateErrorLog_append, hasCreateErrorLog_append, hasCreateErrorLog_append, hae]
    have h3 : hasCreateErrorLog (if c.indexes.length > 0 then
        .log (.creatingIndexes c.name) :: c.indexes.flatMap (indexStep r databaseId cid)
      else []) = false := by
      split
      · simpa [hasCreateErrorLog, List.any_cons] using hie
      · rfl
    rw [h3]
    rfl

/-! ## Wrappers for rewriting whole-run traces -/

lemma fieldCalls_cons_log (l : LogEvent) (t : List Event) :
    fieldCalls (.log l :: t) = fieldCalls t := by
  simp [fieldCalls, List.filter_cons, isFieldCall_log]

lemma fieldCalls_nil : fieldCalls [] = [] := rfl

lemma indexCalls_cons_log (l : LogEvent) (t : List Event) :
    indexCalls (.log l :: t) = indexCalls t := by
  simp [indexCalls, List.filter_cons, isIndexCall_log]

lemma indexCalls_nil : indexCalls [] = [] := rfl

lemma fieldCalls_processCollection_found' (r : Remote) (databaseId : String) (c : Collection)
    (hne : c.id.getD "" ≠ "")
    (hresp : r.respond (.getCollection databaseId (c.id.getD "")) = .ok ()) :
    fieldCalls (processCollection r databaseId c)
      = c.attributes.filterMap
          (fun a => (attrCall databaseId (c.id.getD "") a).map Event.call) := by
  cases hid : c.id with
  | none => rw [hid] at hne; exact absurd rfl hne
  | some cid =>
      simp only [hid, Option.getD_some] at hne hresp ⊢
      exact fieldCalls_processCollection_found r databaseId hid hne hresp

lemma indexCalls_processCollection_found' (r : Remote) (databaseId : String) (c : Collection)
    (hne : c.id.getD "" ≠ "")
    (hresp : r.respond (.getCollection databaseId (c.id.getD "")) = .ok ()) :
    indexCalls (processCollection r databaseId c)
      = c.indexes.map (fun i => .call (indexCall databaseId (c.id.getD "") i)) := by
  cases hid : c.id with
  | none => rw [hid] at hne; exact absurd rfl hne
  | some cid =>
      simp only [hid, Option.getD_some] at hne hresp ⊢
      exact indexCalls_processCollection_found r databaseId hid hne hresp

/-! # The claims -/

/-- C1: for a run over the declared collection list in which every
collection id is configured (non-empty), every remote lookup succeeds and
every create call succeeds, the run issues exactly one create-field call
per declared field descriptor (30 in total), exactly one create-index call
per declared index descriptor (7 in total), and exits with code 0. -/
theorem successful_run_issues_each_once (r : Remote) (databaseId a b c d : String)
    (names : Nat → String) (hok : ∀ q, r.respond q = .ok ())
    (ha : a ≠ "") (hb : b ≠ "") (hc : c ≠ "") (hd : d ≠ "") :
    ((declaredCollections ⟨databaseId, some a, some b, some c, some d⟩ names).flatMap
        Collection.attributes).length = 30 ∧
      ((declaredCollections ⟨databaseId, some a, some b, some c, some d⟩ names).flatMap
        Collection.indexes).length = 7 ∧
      (fieldCalls (setupDatabase r ⟨databaseId, some a, some b, some c, some d⟩ names)).length
        = 30 ∧
      (indexCalls (setupDatabase r ⟨databaseId, some a, some b, some c, some d⟩ names)).length
        = 7 ∧
      mainExitCode r ⟨databaseId, some a, some b, some c, some d⟩ names = 0 := by
  refine ⟨rfl, rfl, ?_, ?_, rfl⟩
  · simp [setupDatabase, declaredCollections, List.flatMap_cons, List.flatMap_nil,
      fieldCalls_cons_log, fieldCalls_append, fieldCalls_nil,
      fieldCalls_processCollection_found', Option.getD_some, ha, hb, hc, hd, hok]
    rfl
  · simp [setupDatabase, declaredCollections, List.flatMap_cons, List.flatMap_nil,
      indexCalls_cons_log, indexCalls_append, indexCalls_nil,
      indexCalls_processCollection_found', Option.getD_some, ha, hb, hc, hd, hok]

/-- Witness for C1 at a concrete environment and the all-succeeding remote. -/
theorem successful_run_issues_each_once_witness :
    ((declaredCollections ⟨"db", some "creators", some "videos", some "comments", some "tags"⟩
        names0).flatMap Collection.attributes).length = 30 ∧
      ((declaredCollections ⟨"db", some "creators", some "videos", some "comments", some "tags"⟩
        names0).flatMap Collection.indexes).length = 7 ∧
      (fieldCalls (setupDatabase allOk
        ⟨"db", some "creators", some "videos", some "comments", some "tags"⟩ names0)).length
        = 30 ∧
      (indexCalls (setupDatabase allOk
        ⟨"db", some "creators", some "videos", some "comments", some "tags"⟩ names0)).length
        = 7 ∧
      mainExitCode allOk ⟨"db", some "creators", some "videos", some "comments", some "tags"⟩
        names0 = 0 :=
  successful_run_issues_each_once allOk "db" "creators" "videos" "comments" "tags" names0
    (fun _ => rfl) (by decide) (by decide) (by decide) (by decide)

/-- C2: when every create request rejects with an already-exists conflict
(a schema applied by a prior run), each field and index attempt is
classified as a SKIP and not as an ERROR, the run still issues the same
create-field and create-index requests as a fresh all-succeeding run (it
continues past every conflict), and the number of SKIP log lines equals the
number of attempted fields plus indexes: re-running the applier is
idempotent. -/
theorem conflict_rerun_idempotent (r : Remote) (databaseId : String) (c : Collection)
    (cid : String) (hid : c.id = some cid) (hne : cid ≠ "")
    (hget : r.respond (.getCollection databaseId cid) = .ok ())
    (hconf : allConflict r) :
    (∀ a ∈ c.attributes, ∀ q, attrCall databaseId cid a = some q →
        attrStep r databaseId cid a = [.call q, .log (.skipAttributeExists a.key)]) ∧
      (∀ i ∈ c.indexes, indexStep r databaseId cid i
        = [.call (indexCall databaseId cid i), .log (.skipIndexExists i.key)]) ∧
      fieldCalls (processCollection r databaseId c)
        = fieldCalls (processCollection allOk databaseId c) ∧
      indexCalls (processCollection r databaseId c)
        = indexCalls (processCollection allOk databaseId c) ∧
      hasCreateErrorLog (processCollection r databaseId c) = false ∧
      countSkipLogs (processCollection r databaseId c)
        = (c.attributes.filterMap (attrCall databaseId cid)).length + c.indexes.length := by
  obtain ⟨hskips, herrs⟩ := skip_processCollection_conflict r databaseId hid hne hget hconf
  refine ⟨?_, ?_, ?_, ?_, herrs, hskips⟩
  · intro a _ q hq
    obtain ⟨m, hr, hm⟩ := hconf q (attrCall_isCreate hq)
    exact attrStep_conflict hq hr hm
  · intro i _
    obtain ⟨m, hr, hm⟩ := hconf (indexCall databaseId cid i) rfl
    exact indexStep_conflict hr hm
  · rw [fieldCalls_processCollection_found r databaseId hid hne hget,
      fieldCalls_processCollection_found allOk databaseId hid hne (by rfl)]
  · rw [indexCalls_processCollection_found r databaseId hid hne hget,
      indexCalls_processCollection_found allOk databaseId hid hne (by rfl)]

/-- Witness for C2 at the all-conflict remote and a concrete collection. -/
theorem conflict_rerun_idempotent_witness :
    (∀ a ∈ sampleCollection.attributes, ∀ q, attrCall "db" "c1" a = some q →
        attrStep conflictRemote "db" "c1" a = [.call q, .log (.skipAttributeExists a.key)]) ∧
      (∀ i ∈ sampleCollection.indexes, indexStep conflictRemote "db" "c1" i
        = [.call (indexCall "db" "c1" i), .log (.skipIndexExists i.key)]) ∧
      fieldCalls (processCollection conflictRemote "db" sampleCollection)
        = fieldCalls (processCollection allOk "db" sampleCollection) ∧
      indexCalls (processCollection conflictRemote "db" sampleCollection)
        = indexCalls (processCollection allOk "db" sampleCollection) ∧
      hasCreateErrorLog (processCollection conflictRemote "db" sampleCollection) = false ∧
      countSkipLogs (processCollection conflictRemote "db" sampleCollection)
        = (sampleCollection.attributes.filterMap (attrCall "db" "c1")).length
          + sampleCollection.indexes.length :=
  conflict_rerun_idempotent conflictRemote "db" sampleCollection "c1" rfl (by decide) rfl
    (by
      intro q hq
      cases q <;>
        first
          | exact Bool.noConfusion hq
          | exact ⟨"Attribute already exists", rfl, by decide⟩)

/-- C3: for every collection processed in a run — whatever the remote
answers — the iteration's trace splits into a prefix containing no
create-index request and a suffix containing no create-field request:
every create-field call of a collection precedes every create-index call
of that same collection (the run processes collections strictly one after
another, each via `processCollection`). -/
theorem fields_precede_indexes (r : Remote) (databaseId : String) (c : Collection) :
    ∃ A B, processCollection r databaseId c = A ++ B ∧
      indexCalls A = [] ∧ fieldCalls B = [] := by
  cases hid : c.id with
  | none =>
      exact ⟨processCollection r databaseId c, [], by simp,
        by rw [processCollection_noId r databaseId (Or.inl hid)]; rfl, rfl⟩
  | some cid =>
      by_cases hne : cid = ""
      · subst hne
        exact ⟨processCollection r databaseId c, [], by simp,
          by rw [processCollection_noId r databaseId (Or.inr hid)]; rfl, rfl⟩
      · cases hresp : r.respond (.getCollection databaseId cid) with
        | error m =>
            by_cases hnf : jsIncludes m "not found" = true
            · exact ⟨processCollection r databaseId c, [], by simp,
                by rw [processCollection_notFound r databaseId hid hne hresp hnf]; rfl, rfl⟩
            · exact ⟨processCollection r databaseId c, [], by simp,
                by rw [processCollection_otherError r databaseId hid hne hresp
                  (Bool.of_not_eq_true hnf)]; rfl, rfl⟩
        | ok u =>
            refine ⟨[.log (.settingUpCollection c.name (some cid)),
                .call (.getCollection databaseId cid), .log (.okCollectionFound c.name),
                .log (.processCreatingAttributes c.name)]
                ++ c.attributes.flatMap (attrStep r databaseId cid)
                ++ [.log .waitAttributesReady, .delay 3000],
              (if c.indexes.length > 0 then
                .log (.creatingIndexes c.name) :: c.indexes.flatMap (indexStep r databaseId cid)
              else []), ?_, ?_, ?_⟩
            · exact processCollection_found r databaseId hid hne hresp
            · rw [indexCalls_append, indexCalls_append, indexCalls_attrPhase]
              rfl
            · exact fieldCalls_indexBlock r databaseId cid c.name c.indexes

/-- C4: a collection whose remote lookup rejects with a not-found message
produces exactly the setting-up log, the lookup request and the dedicated
not-found error log (a constructor distinct from the other collection-level
error log `errCollectionSetup`) — in particular zero create-field and zero
create-index requests — and the surrounding run is the concatenation of the
remaining collections' traces, unchanged. -/
theorem not_found_skips_collection (r : Remote) (databaseId : String)
    (pre post : List Collection) (c : Collection) (cid m : String)
    (hid : c.id = some cid) (hne : cid ≠ "")
    (hresp : r.respond (.getCollection databaseId cid) = .error m)
    (hnf : jsIncludes m "not found" = true) :
    processCollection r databaseId c
        = [.log (.settingUpCollection c.name (some cid)),
           .call (.getCollection databaseId cid), .log (.errCollectionNotFound c.name cid)] ∧
      fieldCalls (processCollection r databaseId c) = [] ∧
      indexCalls (processCollection r databaseId c) = [] ∧
      (pre ++ c :: post).flatMap (processCollection r databaseId)
        = pre.flatMap (processCollection r databaseId)
          ++ processCollection r databaseId c
          ++ post.flatMap (processCollection r databaseId) := by
  have h := processCollection_notFound r databaseId hid hne hresp hnf
  refine ⟨h, by rw [h]; rfl, by rw [h]; rfl, ?_⟩
  simp [List.flatMap_append, List.flatMap_cons, List.append_assoc]

/-- Witness for C4: a concrete collection against the not-found remote,
with one other collection after it. -/
theorem not_found_skips_collection_witness :
    processCollection notFoundRemote "db" sampleCollection
        = [.log (.settingUpCollection "sample" (some "c1")),
           .call (.getCollection "db" "c1"), .log (.errCollectionNotFound "sample" "c1")] ∧
      fieldCalls (processCollection notFoundRemote "db" sampleCollection) = [] ∧
      indexCalls (processCollection notFoundRemote "db" sampleCollection) = [] ∧
      ([] ++ sampleCollection :: [noIdCollection]).flatMap
          (processCollection notFoundRemote "db")
        = ([] : List Collection).flatMap (processCollection notFoundRemote "db")
          ++ processCollection notFoundRemote "db" sampleCollection
          ++ [noIdCollection].flatMap (processCollection notFoundRemote "db") :=
  not_found_skips_collection notFoundRemote "db" [] [noIdCollection] sampleCollection
    "c1" "Collection not found" rfl (by decide) rfl (by decide)

/-- C7: a collection whose configured identifier is missing (or empty)
yields exactly the setting-up log and the configuration-error log — no
remote request at all — and the create-field/create-index requests of the
whole run are exactly those of the run without that collection: the
remaining collections are processed unchanged. -/
theorem missing_id_skips_collection (r : Remote) (databaseId : String)
    (pre post : List Collection) (c : Collection)
    (h : c.id = none ∨ c.id = some "") :
    processCollection r databaseId c
        = [.log (.settingUpCollection c.name c.id), .log (.errMissingCollectionId c.name)] ∧
      apiCalls (processCollection r databaseId c) = [] ∧
      (pre ++ c :: post).flatMap (processCollection r databaseId)
        = pre.flatMap (processCollection r databaseId)
          ++ [.log (.settingUpCollection c.name c.id), .log (.errMissingCollectionId c.name)]
          ++ post.flatMap (processCollection r databaseId) ∧
      fieldCalls ((pre ++ c :: post).flatMap (processCollection r databaseId))
        = fieldCalls ((pre ++ post).flatMap (processCollection r databaseId)) ∧
      indexCalls ((pre ++ c :: post).flatMap (processCollection r databaseId))
        = indexCalls ((pre ++ post).flatMap (processCollection r databaseId)) := by
  have h0 := processCollection_noId r databaseId h
  refine ⟨h0, by rw [h0]; rfl, ?_, ?_, ?_⟩
  · rw [← h0]
    simp [List.flatMap_append, List.flatMap_cons, List.append_assoc]
  · rw [List.flatMap_append, List.flatMap_cons, List.flatMap_append,
      fieldCalls_append, fieldCalls_append, fieldCalls_append, h0]
    rfl
  · rw [List.flatMap_append, List.flatMap_cons, List.flatMap_append,
      indexCalls_append, indexCalls_append, indexCalls_append, h0]
    rfl

/-- Witness for C7: the id-less collection between two configured ones. -/
theorem missing_id_skips_collection_witness :
    processCollection allOk "db" noIdCollection
        = [.log (.settingUpCollection "orphan" none), .log (.errMissingCollectionId "orphan")] ∧
      apiCalls (processCollection allOk "db" noIdCollection) = [] ∧
      ([sampleCollection] ++ noIdCollection :: [sampleCollection]).flatMap
          (processCollection allOk "db")
        = [sampleCollection].flatMap (processCollection allOk "db")
          ++ [.log (.settingUpCollection "orphan" none),
              .log (.errMissingCollectionId "orphan")]
          ++ [sampleCollection].flatMap (processCollection allOk "db") ∧
      fieldCalls (([sampleCollection] ++ noIdCollection :: [sampleCollection]).flatMap
          (processCollection allOk "db"))
        = fieldCalls (([sampleCollection] ++ [sampleCollection]).flatMap
          (processCollection allOk "db")) ∧
      indexCalls (([sampleCollection] ++ noIdCollection :: [sampleCollection]).flatMap
          (processCollection allOk "db"))
        = indexCalls (([sampleCollection] ++ [sampleCollection]).flatMap
          (processCollection allOk "db")) :=
  missing_id_skips_collection allOk "db" [sampleCollection] [sampleCollection]
    noIdCollection (Or.inl rfl)

/-- C5 (code bug): the declared `subscribers` descriptor carries
`default: 0` (and `is_verified` carries `default: false`), but the script
computes `attr.default || null`, and JavaScript's `||` coerces the falsy
`0` and `false` to `null`: the create call issued for these fields carries
a `null` default, and no call carrying the declared default is ever
issued. (The truthy default `"draft"` is passed through.) -/
theorem default_zero_dropped :
    ({ key := "subscribers", type := "integer", required := true,
        default := some (.int 0) } : Attr)
        ∈ (declaredCollections envAllSet names0).flatMap Collection.attributes ∧
      Event.call (.createIntegerAttribute "db" "creators" "subscribers" true .null .null
          .null false) ∈ setupDatabase allOk envAllSet names0 ∧
      Event.call (.createIntegerAttribute "db" "creators" "subscribers" true .null .null
          (.int 0) false) ∉ setupDatabase allOk envAllSet names0 ∧
      Event.call (.createBooleanAttribute "db" "creators" "is_verified" true .null false)
        ∈ setupDatabase allOk envAllSet names0 ∧
      Event.call (.createBooleanAttribute "db" "creators" "is_verified" true
          (.bool false) false) ∉ setupDatabase allOk envAllSet names0 ∧
      Event.call (.createStringAttribute "db" "videos" "status" (some 20) true
          (.str "draft") false) ∈ setupDatabase allOk envAllSet names0 := by
  decide

/-- C6 (code bug): the declared `handle_index` descriptor carries
`unique: true`, but the script passes only `index.type` (which is `"key"`)
to `createIndex`; the `unique` property is never among the arguments, so
the request issued for a unique-declared descriptor is an ordinary
`"key"`-type index request, and no `"unique"`-type request is issued. -/
theorem unique_flag_dropped :
    ({ key := "handle_index", type := "key", attributes := ["handle"],
        unique := some true } : IndexDesc)
        ∈ (declaredCollections envAllSet names0).flatMap Collection.indexes ∧
      Event.call (.createIndex "db" "creators" "handle_index" "key" ["handle"] [])
        ∈ setupDatabase allOk envAllSet names0 ∧
      Event.call (.createIndex "db" "creators" "handle_index" "unique" ["handle"] [])
        ∉ setupDatabase allOk envAllSet names0 := by
  decide

/-- C8: when field descriptor `F`'s create call rejects with a non-conflict
error, its iteration produces the request and the ERROR log (not a SKIP),
and the collection's create-field requests are still exactly one per
descriptor — every field after `F` is attempted; neither the collection nor
the run is aborted. -/
theorem attr_error_continues (r : Remote) (databaseId cid : String) (c : Collection)
    (pre post : List Attr) (F : Attr) (q : ApiCall) (m : String)
    (hattrs : c.attributes = pre ++ F :: post) (hid : c.id = some cid) (hne : cid ≠ "")
    (hget : r.respond (.getCollection databaseId cid) = .ok ())
    (hq : attrCall databaseId cid F = some q) (hresp : r.respond q = .error m)
    (hnc : (jsIncludes m "already exists" || jsIncludes m "Attribute already exists")
      = false) :
    attrStep r databaseId cid F = [.call q, .log (.errCreateAttribute F.key m)] ∧
      fieldCalls (processCollection r databaseId c)
        = pre.filterMap (fun a => (attrCall databaseId cid a).map Event.call)
          ++ .call q :: post.filterMap (fun a => (attrCall databaseId cid a).map Event.call) := by
  have hclass : classifyAttrError F.key m = .errCreateAttribute F.key m := by
    unfold classifyAttrError
    rw [hnc]
    rfl
  constructor
  · rw [attrStep_err hq hresp, hclass]
  · rw [fieldCalls_processCollection_found r databaseId hid hne hget, hattrs]
    simp [List.filterMap_append, List.filterMap_cons, hq]

/-- Witness for C8: the sample collection's single field rejected with a
permission error on the denied remote. -/
theorem attr_error_continues_witness :
    attrStep deniedRemote "db" "c1"
        { key := "k", type := "string", size := some 10, required := true }
        = [.call (.createStringAttribute "db" "c1" "k" (some 10) true .null false),
           .log (.errCreateAttribute "k" "user is not authorized")] ∧
      fieldCalls (processCollection deniedRemote "db" sampleCollection)
        = ([] : List Attr).filterMap (fun a => (attrCall "db" "c1" a).map Event.call)
          ++ .call (.createStringAttribute "db" "c1" "k" (some 10) true .null false)
            :: ([] : List Attr).filterMap (fun a => (attrCall "db" "c1" a).map Event.call) :=
  attr_error_continues deniedRemote "db" "c1" sampleCollection [] []
    { key := "k", type := "string", size := some 10, required := true }
    (.createStringAttribute "db" "c1" "k" (some 10) true .null false)
    "user is not authorized" rfl rfl (by decide) rfl rfl rfl (by decide)

/-- C9 counterexample: a run in which the single field-creation attempt is
rejected as already-existing (and is classified as a SKIP) contains no
100ms delay at all — the claim that every field-creation attempt,
including failing or skipped ones, is followed by the 100ms delay is false:
the `setTimeout` sits inside the `try` after the awaited create, so a
rejection jumps to the `catch` and skips it. -/
theorem failed_attempt_no_delay :
    (fieldCalls (processCollection conflictRemote "db" sampleCollection)).length = 1 ∧
      countSkipLogs (processCollection conflictRemote "db" sampleCollection) = 1 ∧
      countEv (processCollection conflictRemote "db" sampleCollection) (.delay 100) = 0 := by
  decide

/-- C9 (amended): on every adjacent pair of trace events, an OK-created-
attribute log is immediately followed by the 100ms delay and an OK-created-
index log by the 200ms delay; the number of 100ms (resp. 200ms) delays
equals the number of successful field (resp. index) creations — so failed
or skipped attempts are not followed by the per-item delay; and a found
collection's trace contains the 3000ms delay exactly once, after every
create-field request and before every create-index request. -/
theorem delays_follow_successes (r : Remote) (databaseId : String) (c : Collection)
    (cid : String) (hid : c.id = some cid) (hne : cid ≠ "")
    (hget : r.respond (.getCollection databaseId cid) = .ok ()) :
    List.Chain' delayDiscipline (processCollection r databaseId c) ∧
      countEv (processCollection r databaseId c) (.delay 100)
        = countOkAttrLogs (processCollection r databaseId c) ∧
      countEv (processCollection r databaseId c) (.delay 200)
        = countOkIndexLogs (processCollection r databaseId c) ∧
      ∃ A B, processCollection r databaseId c = A ++ Event.delay 3000 :: B ∧
        countEv A (.delay 3000) = 0 ∧ countEv B (.delay 3000) = 0 ∧
        indexCalls A = [] ∧ fieldCalls B = [] :=
  ⟨chain'_processCollection r databaseId c,
    count100_processCollection_found r databaseId hid hne hget,
    count200_processCollection_found r databaseId hid hne hget,
    count3000_decomp_processCollection_found r databaseId hid hne hget⟩

/-- Witness for C9 (amended) at the all-succeeding remote and the sample
collection. -/
theorem delays_follow_successes_witness :
    List.Chain' delayDiscipline (processCollection allOk "db" sampleCollection) ∧
      countEv (processCollection allOk "db" sampleCollection) (.delay 100)
        = countOkAttrLogs (processCollection allOk "db" sampleCollection) ∧
      countEv (processCollection allOk "db" sampleCollection) (.delay 200)
        = countOkIndexLogs (processCollection allOk "db" sampleCollection) ∧
      ∃ A B, processCollection allOk "db" sampleCollection = A ++ Event.delay 3000 :: B ∧
        countEv A (.delay 3000) = 0 ∧ countEv B (.delay 3000) = 0 ∧
        indexCalls A = [] ∧ fieldCalls B = [] :=
  delays_follow_successes allOk "db" sampleCollection "c1" rfl (by decide) rfl

/-- C10: a field descriptor whose type is none of the five handled kinds
produces exactly one WARN log — no API request and no delay — and the
create-field requests of a list containing it are exactly those of the
descriptors around it: the loop continues with the next field. -/
theorem unknown_type_warns (r : Remote) (databaseId cid : String)
    (pre post : List Attr) (a : Attr)
    (h : a.type ∉ ["string", "integer", "double", "boolean", "datetime"]) :
    attrStep r databaseId cid a = [.log (.warnUnknownAttributeType a.type a.key)] ∧
      apiCalls (attrStep r databaseId cid a) = [] ∧
      countEv (attrStep r databaseId cid a) (.delay 100) = 0 ∧
      fieldCalls ((pre ++ a :: post).flatMap (attrStep r databaseId cid))
        = pre.filterMap (fun x => (attrCall databaseId cid x).map Event.call)
          ++ post.filterMap (fun x => (attrCall databaseId cid x).map Event.call) := by
  have hnone := @attrCall_of_unknown_type databaseId cid a h
  have h0 := attrStep_unknown r hnone
  refine ⟨h0, by rw [h0]; rfl, by rw [h0]; rfl, ?_⟩
  rw [fieldCalls_attrPhase]
  simp [List.filterMap_append, List.filterMap_cons, hnone]

/-- Witness for C10: a descriptor with type `url`. -/
theorem unknown_type_warns_witness :
    attrStep allOk "db" "c1" { key := "k2", type := "url", required := true }
        = [.log (.warnUnknownAttributeType "url" "k2")] ∧
      apiCalls (attrStep allOk "db" "c1" { key := "k2", type := "url", required := true })
        = [] ∧
      countEv (attrStep allOk "db" "c1" { key := "k2", type := "url", required := true })
        (.delay 100) = 0 ∧
      fieldCalls (List.flatMap
          (sampleCollection.attributes
            ++ { key := "k2", type := "url", required := true } :: sampleCollection.attributes)
          (attrStep allOk "db" "c1"))
        = sampleCollection.attributes.filterMap
            (fun x => (attrCall "db" "c1" x).map Event.call)
          ++ sampleCollection.attributes.filterMap
            (fun x => (attrCall "db" "c1" x).map Event.call) :=
  unknown_type_warns allOk "db" "c1" sampleCollection.attributes sampleCollection.attributes
    { key := "k2", type := "url", required := true } (by decide)

end ArbanTv
